import Mathlib

/-!
Verification development for the resilient fetch-and-cache subsystem of
`malsentinel` (`src/metadata_cache.py`).

The Python source is shallowly embedded as executable Lean definitions:

* the network is an oracle `env : Nat → Resp` giving the server's answer to
  the `i`-th physical GET request of the run (`none` models a
  connection-level failure — the `requests` library raising a
  `ConnectionError`/`Timeout` at `session.get`, i.e. no HTTP response at
  all);
* `api_request_go` embeds the body of the source's `api_request`; the
  source threads an ascending counter `recursed_times` (compared only
  via `recursed_times > 2` and `recursed_times < 5`, incremented on each
  recursion, 0 at entry).  Here it is carried as the equivalent descending
  remaining budget `b = 5 - recursed_times` (so `recursed_times > 2` is
  `b < 3` and `recursed_times < 5` is `b ≠ 0`, entry `b = 5`), which makes
  the recursion structural and the function reducible by `rfl`.
  Crucially, the source's recursive calls
  (`return api_request(session, url, recursed_times + 1)`) resolve
  through the module-global name to the DECORATED function, so every
  recursion re-enters a fresh 3-try backoff wrapper; the embedding
  mirrors this by wrapping each recursive position in `with_backoff · 3`;
* exceptions: both constructors of `Exc` model subclasses of
  `requests.exceptions.RequestException` — `httpError s` is the
  `HTTPError` raised by `resp.raise_for_status()` (its `.response` carries
  status `s`), `connError` is a connection-level exception (its
  `.response` is `None`);
* the `backoff.on_exception(constant 5, RequestException, max_tries=3)`
  decorator is `with_backoff`: since every `Exc` is a `RequestException`,
  it re-issues the wrapped attempt (with its original arguments) on any
  failure, up to 3 tries in total, sleeping 5 units between tries; one
  wrapper instance surrounds every (recursive) `api_request` invocation;
* time is summed in `slept`, token refreshes (`refresh_token`) in
  `refreshes`, alternative-titles strips in `strips`.

URLs are token lists: the source only examines the URL string through
`"alternative_titles," in url` and `url.replace("alternative_titles,", "")`,
which at token granularity are membership and removal of the `altTok`
token.
-/

/-- A JSON scalar value, enough to express the decoded bodies and the
error markers the cache logic inspects. -/
inductive JVal where
  | num (n : Nat)
  | str (s : String)
  | null
deriving DecidableEq, Repr

/-- A decoded JSON object (`metadata` of a `Summary`): keys with values. -/
abbrev Metadata := List (String × JVal)

/-- Python's `k in d` on a dict. -/
def hasKey (m : Metadata) (k : String) : Bool :=
  m.any (fun p => p.1 = k)

/-- Python's `d[k]` on a dict (first binding of the key). -/
def getKey (m : Metadata) (k : String) : Option JVal :=
  match m with
  | [] => none
  | (k', v) :: rest => if k' = k then some v else getKey rest k

/-- A request URL, as the list of its textual segments. -/
abbrev Url := List String

/-- The query segment whose presence triggers the 400 recovery:
`"alternative_titles,"` in the source. -/
def altTok : String := "alternative_titles,"

/-- An HTTP response the server actually produced: status code and decoded
JSON body. -/
structure HResp where
  status : Nat
  body : Metadata
deriving DecidableEq, Repr

/-- Outcome of one physical GET: `some r` is an HTTP response, `none` is a
connection-level failure (`session.get` raised before any response). -/
abbrev Resp := Option HResp

/-- A raised `requests.exceptions.RequestException`.  `httpError s` (the
`HTTPError` from `raise_for_status`, `.response.status_code = s`) and
`connError` (connection-level, `.response is None`) are both sub-classes of
`RequestException`, hence both are caught by the backoff decorator and by
the orchestrator's `except` clause. -/
inductive Exc where
  | httpError (status : Nat)
  | connError
deriving DecidableEq, Repr

/-- Result of an executor run: the value or raised exception, the index of
the next unconsumed physical response, and effect counters (token
refreshes, alternative-titles strips, total time slept). -/
structure ApiOut where
  res : Except Exc Metadata
  next : Nat
  refreshes : Nat
  strips : Nat
  slept : Nat
deriving Repr

/-- The `backoff.on_exception(lambda: backoff.constant(5), RequestException,
max_tries=3)` decorator, unrolled over the number of tries still allowed,
around one attempt function `f` (an `api_request` body at a fixed
`recursed_times` and URL, taking the physical-request index): on any
raised `RequestException` (every `Exc` is one) it waits 5 units and
re-invokes the attempt with its original arguments; the last allowed try
re-raises. -/
def with_backoff (f : Nat → ApiOut) : Nat → Nat → ApiOut
  | 0, i => f i
  | 1, i => f i
  | t + 2, i =>
    let o := f i
    match o.res with
    | .ok _ => o
    | .error _ =>
      let o2 := with_backoff f (t + 1) o.next
      ⟨o2.res, o2.next, o.refreshes + o2.refreshes, o.strips + o2.strips,
        o.slept + 5 + o2.slept⟩

/-- The body of the source's `api_request(session, url, recursed_times)`,
with remaining budget `b = 5 - recursed_times` (see module comment) and
`i` the index of the next physical request.  Mirrors the source branch by
branch: sleep 1 and GET; on 400 with the alternative-titles segment, strip
it and re-request while `recursed_times ≤ 2` (`b ≥ 3`), else raise; on 401
refresh the token and raise; on 429 sleep 60 and raise; on any other
status ≥ 400 except 404, sleep 60 and re-request while `recursed_times < 5`
(`b ≠ 0`), else raise; `raise_for_status` raises iff status ≥ 400;
otherwise return the decoded body.  Each re-request
(`api_request(session, url2, recursed_times + 1)` in the source) goes
through the module-global decorated name, so it is a fresh
`with_backoff · 3` wrapper around the body at the decremented budget; its
raised exception, if any, propagates out of this body (modelled by
returning its error result with this level's effects added). -/
def api_request_go (env : Nat → Resp) : Nat → Url → Nat → ApiOut
  | b' + 1 => fun url i =>
    match env i with
    | none => ⟨.error .connError, i + 1, 0, 0, 1⟩
    | some resp =>
      if resp.status = 400 ∧ altTok ∈ url then
        if 3 ≤ b' + 1 then
          let o := with_backoff
            (api_request_go env b' (url.filter (fun t => t ≠ altTok))) 3 (i + 1)
          ⟨o.res, o.next, o.refreshes, o.strips + 1, o.slept + 1⟩
        else ⟨.error (.httpError 400), i + 1, 0, 0, 1⟩
      else if resp.status = 401 then ⟨.error (.httpError 401), i + 1, 1, 0, 1⟩
      else if resp.status = 429 then ⟨.error (.httpError 429), i + 1, 0, 0, 61⟩
      else
        if 400 ≤ resp.status ∧ resp.status ≠ 404 then
          let o := with_backoff (api_request_go env b' url) 3 (i + 1)
          ⟨o.res, o.next, o.refreshes, o.strips, o.slept + 61⟩
        else if 400 ≤ resp.status then ⟨.error (.httpError resp.status), i + 1, 0, 0, 1⟩
        else ⟨.ok resp.body, i + 1, 0, 0, 1⟩
  | 0 => fun url i =>
    -- budget 0 is `recursed_times = 5`: neither `recursed_times ≤ 2` (the
    -- alternative-titles retry guard) nor `recursed_times < 5` (the
    -- generic retry guard) holds, so both recovery branches raise.
    match env i with
    | none => ⟨.error .connError, i + 1, 0, 0, 1⟩
    | some resp =>
      if resp.status = 400 ∧ altTok ∈ url then
        ⟨.error (.httpError 400), i + 1, 0, 0, 1⟩
      else if resp.status = 401 then ⟨.error (.httpError 401), i + 1, 1, 0, 1⟩
      else if resp.status = 429 then ⟨.error (.httpError 429), i + 1, 0, 0, 61⟩
      else if 400 ≤ resp.status then ⟨.error (.httpError resp.status), i + 1, 0, 0, 1⟩
      else ⟨.ok resp.body, i + 1, 0, 0, 1⟩

/-- One undecorated top-level body attempt of the source's `api_request`
at `recursed_times = 0` (full budget 5) — what the outermost wrapper
invokes once per try; its inner re-requests are themselves decorated. -/
def api_request (env : Nat → Resp) (url : Url) (i : Nat) : ApiOut :=
  api_request_go env 5 url i

/-- The decorated executor — the module-global `api_request` name the
orchestrator (and any external caller) actually invokes: the outermost
3-try wrapper around the top-level body attempt. -/
def execute (env : Nat → Resp) (url : Url) (i : Nat) : ApiOut :=
  with_backoff (api_request env url) 3 i

/-- The cached record of one fetch outcome (`url_cache.core.Summary`):
cache key, reserved `data` payload (always `[]` here, as in the source),
`metadata` (decoded body or error marker), and creation time
(`datetime.now()`, modelled as the physical-request index at which the
summary was produced). -/
structure Summary where
  url : Url
  data : Metadata
  metadata : Metadata
  timestamp : Nat
deriving DecidableEq, Repr

/-- The durable Summary Store: bindings from canonical URL to `Summary`. -/
abbrev Store := List (Url × Summary)

/-- `summary_cache.get`-style lookup: the binding for the key, if any. -/
def Store.find : Store → Url → Option Summary
  | [], _ => none
  | (k, v) :: rest, u => if k = u then some v else Store.find rest u

/-- `summary_cache.put`: overwrite the (unique) binding for the key. -/
def Store.put (st : Store) (u : Url) (s : Summary) : Store :=
  (u, s) :: st.filter (fun p => p.1 ≠ u)

/-- Modelled from the spec: `URLCache.preprocess_url`, the URL
normalization of the third-party cache library (not part of this
repository's sources).  The spec requires only that normalization be
stable across calls; it is modelled here as dropping empty segments,
which is idempotent. -/
def preprocess_url (u : Url) : Url :=
  u.filter (fun t => t ≠ "")

/-- The orchestrator-side state threaded through a run: the store, the
index of the next physical request (advancing it counts physical network
requests), and the number of Request Executor invocations
(`request_data` calls). -/
structure Cache where
  store : Store
  idx : Nat
  ncalls : Nat
deriving Repr

/-- `MetadataCache.request_data`: normalize the URL, run the decorated
executor, and wrap the outcome.  A caught `RequestException` carrying an
HTTP response becomes the error-marker summary; a connection-level
exception has `ex.response = None`, so the handler's
`ex.response.text` access itself raises (`AttributeError`), modelled as
`Except.error ()` — the call produces no `Summary` at all. -/
def request_data (env : Nat → Resp) (c : Cache) (url : Url) :
    Except Unit Summary × Cache :=
  let uurl := preprocess_url url
  let o := execute env uurl c.idx
  let c' : Cache := ⟨c.store, o.next, c.ncalls + 1⟩
  match o.res with
  | .ok body => (.ok ⟨uurl, [], body, c.idx⟩, c')
  | .error (.httpError s) => (.ok ⟨uurl, [], [("error", .num s)], c.idx⟩, c')
  | .error .connError => (.error (), c')

/-- `MetadataCache.refresh_data`: fetch fresh data and persist it under
the normalized URL; a failure escaping `request_data` propagates and
writes nothing. -/
def refresh_data (env : Nat → Resp) (c : Cache) (url : Url) :
    Except Unit Summary × Cache :=
  let uurl := preprocess_url url
  match request_data env c uurl with
  | (.ok s, c') => (.ok s, ⟨c'.store.put uurl s, c'.idx, c'.ncalls⟩)
  | (.error e, c') => (.error e, c')

/-- Modelled from the spec: `URLCache.get` of the third-party cache
library — return the stored `Summary` for the normalized URL when
present, else fetch and persist on this first-ever request
(`refresh_data`). -/
def cache_get (env : Nat → Resp) (c : Cache) (url : Url) :
    Except Unit Summary × Cache :=
  let uurl := preprocess_url url
  match c.store.find uurl with
  | some s => (.ok s, c)
  | none => refresh_data env c url

/-- `is_404`: the summary is a settled not-found, i.e. its metadata
carries an `error` key whose value is `404`. -/
def is_404 (s : Summary) : Bool :=
  match getKey s.metadata "error" with
  | some v => v = JVal.num 404
  | none => false

/-- `has_data`: both required fields `title` and `id` are present. -/
def has_data (s : Summary) : Bool :=
  hasKey s.metadata "title" && hasKey s.metadata "id"

/-- The `BASE_URL` template of `MetadataCache`, instantiated with entry
type and id; the fixed field-selection list contains the
alternative-titles segment (`altTok`) exactly once. -/
def buildUrl (etype : String) (mal_id : Nat) : Url :=
  ["https://api.myanimelist.net/v2/", etype, "/", toString mal_id,
    "?nsfw=true&fields=", "id,", "title,", "main_picture,", altTok,
    "start_date,", "end_date,", "synopsis,", "mean,", "rank,",
    "popularity,", "num_list_users,", "num_scoring_users,", "nsfw,",
    "created_at,", "updated_at,", "media_type,", "status,", "genres,",
    "my_list_status,", "num_episodes,", "start_season,", "broadcast,",
    "source,", "average_episode_duration,", "rating,", "pictures,",
    "background,", "related_anime,", "related_manga,",
    "recommendations,", "studios,", "statistics"]

/-- `request_metadata`: the orchestrator's fetch.  Asserts the entry type,
builds the canonical URL, then: under `rerequest_failed`, read the cached
summary (fetching on a miss) and refresh it only when it has no data and
is not a settled 404, otherwise fall through to a plain cache read; under
`force_rerequest` (only reached when `rerequest_failed` is false — the
source uses `elif`), refresh unconditionally; otherwise a plain cache
read. -/
def request_metadata (env : Nat → Resp) (id_ : Nat) (etype : String)
    (rerequest_failed : Bool) (force_rerequest : Bool) (c : Cache) :
    Except Unit Summary × Cache :=
  if etype = "anime" ∨ etype = "manga" then
    let api_url := buildUrl etype id_
    if rerequest_failed then
      match cache_get env c api_url with
      | (.error e, c') => (.error e, c')
      | (.ok sdata, c') =>
        if ¬ has_data sdata ∧ ¬ is_404 sdata then refresh_data env c' api_url
        else cache_get env c' api_url
    else if force_rerequest then refresh_data env c api_url
    else cache_get env c api_url
  else (.error (), c)

/-! ## Concrete environments, stores and summaries used by counterexamples
and witnesses -/

/-- The canonical anime/1 request URL. -/
def urlAnime1 : Url := buildUrl "anime" 1

/-- Its normalized form (the cache key). -/
def uAnime1 : Url := preprocess_url urlAnime1

/-- A successful decoded body with the two required fields. -/
def bodyOK : Metadata := [("id", .num 1), ("title", .str "X")]

/-- A cached successful summary for anime/1. -/
def sumGood : Summary := ⟨uAnime1, [], bodyOK, 0⟩

/-- A cache holding the successful summary for anime/1. -/
def cacheGood : Cache := ⟨[(uAnime1, sumGood)], 0, 0⟩

/-- A cached other-failure summary (`error = 500`) for anime/1. -/
def sumErr500 : Summary := ⟨uAnime1, [], [("error", .num 500)], 0⟩

/-- A cache holding the error-500 summary for anime/1. -/
def cacheErr500 : Cache := ⟨[(uAnime1, sumErr500)], 0, 0⟩

/-- Every physical request fails at the connection level. -/
def envConnFail : Nat → Resp := fun _ => none

/-- Every physical request succeeds with the good body. -/
def envOk200 : Nat → Resp := fun _ => some ⟨200, bodyOK⟩

/-- Every physical request answers HTTP 404. -/
def env404s : Nat → Resp := fun _ => some ⟨404, []⟩

/-- First physical request answers 400, all later ones 500. -/
def envAltThen500 : Nat → Resp :=
  fun i => if i = 0 then some ⟨400, []⟩ else some ⟨500, []⟩

/-- First physical request answers 500, all later ones 400. -/
def env500then400 : Nat → Resp :=
  fun i => if i = 0 then some ⟨500, []⟩ else some ⟨400, []⟩

/-- A minimal URL containing the alternative-titles segment, used for the
long executor traces. -/
def urlAlt : Url := [altTok]

/-- First physical request answers 400, all later ones 200 with the good
body. -/
def envAlt200 : Nat → Resp :=
  fun i => if i = 0 then some ⟨400, []⟩ else some ⟨200, bodyOK⟩

/-- First physical request answers 401, all later ones 200 with the good
body. -/
def env401then200 : Nat → Resp :=
  fun i => if i = 0 then some ⟨401, []⟩ else some ⟨200, bodyOK⟩

/-! ## Helper lemmas -/

/-- Normalization is idempotent (the spec's "stable across calls"). -/
lemma preprocess_idem (u : Url) :
    preprocess_url (preprocess_url u) = preprocess_url u := by
  simp [preprocess_url, List.filter_filter]

/-- Looking up the key just written returns the written summary. -/
lemma Store.find_put_self (st : Store) (u : Url) (s : Summary) :
    (st.put u s).find u = some s := by
  simp [Store.put, Store.find]

/-- Closed form of `request_data`, by cases on the executor outcome. -/
lemma request_data_eq (env : Nat → Resp) (c : Cache) (url : Url) :
    request_data env c url =
      (match (execute env (preprocess_url url) c.idx).res with
        | .ok body => Except.ok ⟨preprocess_url url, [], body, c.idx⟩
        | .error (.httpError st) =>
            Except.ok ⟨preprocess_url url, [], [("error", .num st)], c.idx⟩
        | .error .connError => Except.error (),
       ⟨c.store, (execute env (preprocess_url url) c.idx).next, c.ncalls + 1⟩) := by
  rcases h : (execute env (preprocess_url url) c.idx).res with e | body
  · cases e <;> simp [request_data, h]
  · simp [request_data, h]

/-- Closed form of `refresh_data`, by cases on the executor outcome: both
HTTP outcomes write the produced summary under the normalized URL, a
connection-level exhaustion writes nothing. -/
lemma refresh_data_eq (env : Nat → Resp) (c : Cache) (url : Url) :
    refresh_data env c url =
      match (execute env (preprocess_url url) c.idx).res with
      | .ok body =>
          (Except.ok ⟨preprocess_url url, [], body, c.idx⟩,
            ⟨c.store.put (preprocess_url url)
                ⟨preprocess_url url, [], body, c.idx⟩,
              (execute env (preprocess_url url) c.idx).next, c.ncalls + 1⟩)
      | .error (.httpError st) =>
          (Except.ok ⟨preprocess_url url, [], [("error", .num st)], c.idx⟩,
            ⟨c.store.put (preprocess_url url)
                ⟨preprocess_url url, [], [("error", .num st)], c.idx⟩,
              (execute env (preprocess_url url) c.idx).next, c.ncalls + 1⟩)
      | .error .connError =>
          (Except.error (),
            ⟨c.store, (execute env (preprocess_url url) c.idx).next,
              c.ncalls + 1⟩) := by
  have hidem := preprocess_idem url
  rcases h : (execute env (preprocess_url url) c.idx).res with e | body
  · cases e <;> simp [refresh_data, request_data, hidem, h]
  · simp [refresh_data, request_data, hidem, h]

/-- A cache hit is returned as-is, with no state change. -/
lemma cache_get_hit (env : Nat → Resp) (c : Cache) (url : Url) (s : Summary)
    (h : c.store.find (preprocess_url url) = some s) :
    cache_get env c url = (Except.ok s, c) := by
  simp [cache_get, h]

/-- A cache miss fetches and persists. -/
lemma cache_get_miss (env : Nat → Resp) (c : Cache) (url : Url)
    (h : c.store.find (preprocess_url url) = none) :
    cache_get env c url = refresh_data env c url := by
  simp [cache_get, h]

/-! ## Claims -/

/-- C1, counterexample: with a successful summary already cached for
anime/1 and both `rerequest_failed` and `force_rerequest` set, the fetch
returns the cached summary and leaves the state untouched (`idx` and
`ncalls` unchanged — zero physical requests, zero executor invocations),
because the source's `elif` never reaches the `force_rerequest` branch
when `rerequest_failed` is set.  The claim requires an executor
invocation regardless of `rerequestFailed`; under `envConnFail` any
executor invocation would have advanced `idx`. -/
theorem c1_counterexample :
    request_metadata envConnFail 1 "anime" true true cacheGood =
      (Except.ok sumGood, cacheGood) := rfl

/-- C1 (amended): when `rerequestFailed` is false, `forceRerequest=true`
invokes the Request Executor exactly once (for every prior cache state),
and any returned summary is the fresh result, persisted in the store
under the canonical URL. -/
theorem c1_force_rerequest_bypasses_cache (env : Nat → Resp) (id_ : Nat)
    (etype : String) (c : Cache) (h : etype = "anime" ∨ etype = "manga") :
    (request_metadata env id_ etype false true c).2.ncalls = c.ncalls + 1 ∧
    ∀ s, (request_metadata env id_ etype false true c).1 = Except.ok s →
      s.url = preprocess_url (buildUrl etype id_) ∧
      (request_metadata env id_ etype false true c).2.store =
        c.store.put (preprocess_url (buildUrl etype id_)) s := by
  have hr : request_metadata env id_ etype false true c
      = refresh_data env c (buildUrl etype id_) := by
    simp [request_metadata, h]
  rw [hr, refresh_data_eq]
  rcases hres : (execute env (preprocess_url (buildUrl etype id_)) c.idx).res
    with e | body
  · cases e <;> simp_all
  · simp_all

/-- C1, witness for the amended theorem at a concrete input. -/
theorem c1_force_rerequest_bypasses_cache_witness :
    (request_metadata envOk200 1 "anime" false true cacheGood).2.ncalls =
      cacheGood.ncalls + 1 :=
  (c1_force_rerequest_bypasses_cache envOk200 1 "anime" cacheGood
    (Or.inl rfl)).1

/-- C2, counterexample: a cached other-failure summary whose metadata is
`[("error", 500)]` carries an error key, yet a fetch with
`rerequest_failed` re-invokes the executor (one physical request, one
executor invocation) and overwrites the entry — the claim says any error
key is returned unchanged without a network call. -/
theorem c2_counterexample :
    request_metadata envOk200 1 "anime" true false cacheErr500 =
      (Except.ok sumGood, ⟨[(uAnime1, sumGood)], 1, 1⟩) := rfl

/-- C2 (amended): under `rerequestFailed`, a cached summary is re-fetched
iff it lacks one of the required fields `id`/`title` AND is not a settled
404 (`error == 404`); in particular a non-404 error marker IS re-fetched,
while a successful or settled-404 summary is returned unchanged with no
network call. -/
theorem c2_rerequest_failed_condition (env : Nat → Resp) (id_ : Nat)
    (etype : String) (c : Cache) (s : Summary)
    (h : etype = "anime" ∨ etype = "manga")
    (hs : c.store.find (preprocess_url (buildUrl etype id_)) = some s) :
    ((¬ has_data s ∧ ¬ is_404 s) →
      (request_metadata env id_ etype true false c).2.ncalls = c.ncalls + 1) ∧
    ((has_data s ∨ is_404 s) →
      request_metadata env id_ etype true false c = (Except.ok s, c)) := by
  have hget := cache_get_hit env c (buildUrl etype id_) s hs
  have hr : request_metadata env id_ etype true false c
      = if ¬ has_data s ∧ ¬ is_404 s then refresh_data env c (buildUrl etype id_)
        else cache_get env c (buildUrl etype id_) := by
    simp [request_metadata, h, hget]
  constructor
  · intro hcond
    rw [hr, if_pos hcond, refresh_data_eq]
    rcases hres : (execute env (preprocess_url (buildUrl etype id_)) c.idx).res
      with e | body
    · cases e <;> simp_all
    · simp_all
  · intro hcond
    have hnot : ¬ (¬ has_data s ∧ ¬ is_404 s) := by tauto
    rw [hr, if_neg hnot, hget]

/-- C2, witness for the amended theorem at concrete inputs: the cached
error-500 summary is eligible, so one executor invocation occurs. -/
theorem c2_rerequest_failed_condition_witness :
    (request_metadata envOk200 1 "anime" true false cacheErr500).2.ncalls =
      cacheErr500.ncalls + 1 :=
  (c2_rerequest_failed_condition envOk200 1 "anime" cacheErr500 sumErr500
    (Or.inl rfl) rfl).1 (by decide)

/-- One-step unfolding of `api_request_go` at a positive budget. -/
lemma api_request_go_succ (env : Nat → Resp) (b' : Nat) (url : Url)
    (i : Nat) :
    api_request_go env (b' + 1) url i =
      match env i with
      | none => ⟨.error .connError, i + 1, 0, 0, 1⟩
      | some resp =>
        if resp.status = 400 ∧ altTok ∈ url then
          if 3 ≤ b' + 1 then
            let o := with_backoff
              (api_request_go env b' (url.filter (fun t => t ≠ altTok))) 3 (i + 1)
            ⟨o.res, o.next, o.refreshes, o.strips + 1, o.slept + 1⟩
          else ⟨.error (.httpError 400), i + 1, 0, 0, 1⟩
        else if resp.status = 401 then ⟨.error (.httpError 401), i + 1, 1, 0, 1⟩
        else if resp.status = 429 then ⟨.error (.httpError 429), i + 1, 0, 0, 61⟩
        else
          if 400 ≤ resp.status ∧ resp.status ≠ 404 then
            let o := with_backoff (api_request_go env b' url) 3 (i + 1)
            ⟨o.res, o.next, o.refreshes, o.strips, o.slept + 61⟩
          else if 400 ≤ resp.status then
            ⟨.error (.httpError resp.status), i + 1, 0, 0, 1⟩
          else ⟨.ok resp.body, i + 1, 0, 0, 1⟩ := rfl

/-- One-step unfolding of `api_request_go` at budget 0 (no recursion
possible in any branch). -/
lemma api_request_go_zero (env : Nat → Resp) (url : Url) (i : Nat) :
    api_request_go env 0 url i =
      match env i with
      | none => ⟨.error .connError, i + 1, 0, 0, 1⟩
      | some resp =>
        if resp.status = 400 ∧ altTok ∈ url then
          ⟨.error (.httpError 400), i + 1, 0, 0, 1⟩
        else if resp.status = 401 then ⟨.error (.httpError 401), i + 1, 1, 0, 1⟩
        else if resp.status = 429 then ⟨.error (.httpError 429), i + 1, 0, 0, 61⟩
        else if 400 ≤ resp.status then
          ⟨.error (.httpError resp.status), i + 1, 0, 0, 1⟩
        else ⟨.ok resp.body, i + 1, 0, 0, 1⟩ := rfl

/-- One alternative-titles recovery step: on a 400 response for a URL
containing the segment, with budget `b ≥ 3` (source: `recursed_times ≤ 2`),
the body strips the segment and continues as a freshly decorated (3-try)
call on the stripped URL at budget `b - 1`. -/
lemma api_request_go_alt_step (env : Nat → Resp) (b : Nat) (url : Url)
    (i : Nat) (resp : HResp) (h1 : env i = some resp)
    (h2 : resp.status = 400) (h3 : altTok ∈ url) (hb : 3 ≤ b) :
    api_request_go env b url i =
      ⟨(with_backoff (api_request_go env (b - 1) (url.filter (fun t => t ≠ altTok))) 3 (i + 1)).res,
       (with_backoff (api_request_go env (b - 1) (url.filter (fun t => t ≠ altTok))) 3 (i + 1)).next,
       (with_backoff (api_request_go env (b - 1) (url.filter (fun t => t ≠ altTok))) 3 (i + 1)).refreshes,
       (with_backoff (api_request_go env (b - 1) (url.filter (fun t => t ≠ altTok))) 3 (i + 1)).strips + 1,
       (with_backoff (api_request_go env (b - 1) (url.filter (fun t => t ≠ altTok))) 3 (i + 1)).slept + 1⟩ := by
  obtain ⟨b', rfl⟩ : ∃ b', b = b' + 1 := ⟨b - 1, by omega⟩
  rw [api_request_go_succ, h1]
  dsimp only
  rw [if_pos ⟨h2, h3⟩, if_pos hb]
  norm_num

/-- Exhausted alternative-titles recovery: on a 400 response for a URL
containing the segment, with budget `b < 3` (source:
`recursed_times > 2`), the 400 error propagates at once. -/
lemma api_request_go_alt_raise (env : Nat → Resp) (b : Nat) (url : Url)
    (i : Nat) (resp : HResp) (h1 : env i = some resp)
    (h2 : resp.status = 400) (h3 : altTok ∈ url) (hb : b < 3) :
    api_request_go env b url i =
      ⟨Except.error (Exc.httpError 400), i + 1, 0, 0, 1⟩ := by
  rcases b with _ | b'
  · rw [api_request_go_zero, h1]
    dsimp only
    rw [if_pos ⟨h2, h3⟩]
  · rw [api_request_go_succ, h1]
    dsimp only
    rw [if_pos ⟨h2, h3⟩, if_neg (by omega)]

set_option maxRecDepth 100000 in
/-- C3, counterexample: a 400 (alt-titles cause) followed by 500s, run
through the decorated executor.  The single strip happens on the first
physical attempt; the continuation is a nested decorated call at the
SHARED counter's next value (`recursed_times = 1`, generic depth 4), so
each outer try exhausts a depth-4 retry tree of 363 responses
(`1 + 363 = 364` per try, `3 × 364 = 1092` in all) before the 500
propagates.  Independent counters would restart the continuation at
generic depth 5, consuming `1 + 3 × 364 = 1093` responses within the
first outer try alone (3279 in all). -/
theorem c3_counterexample :
    execute envAltThen500 urlAlt 0 =
      ⟨Except.error (Exc.httpError 500), 1092, 0, 1, 26452⟩ := rfl

/-- C3 (amended): the two bounds share a single recursion counter.  A
body attempt at `recursed_times = 0` that sees a 400 (alt-titles cause)
continues as the decorated re-request at the shared counter's next
value — remaining generic budget 4, not an independent fresh 5. -/
theorem c3_shared_budget (env : Nat → Resp) (url : Url) (i : Nat)
    (resp : HResp) (h1 : env i = some resp) (h2 : resp.status = 400)
    (h3 : altTok ∈ url) :
    api_request env url i =
      ⟨(with_backoff (api_request_go env 4 (url.filter (fun t => t ≠ altTok))) 3 (i + 1)).res,
       (with_backoff (api_request_go env 4 (url.filter (fun t => t ≠ altTok))) 3 (i + 1)).next,
       (with_backoff (api_request_go env 4 (url.filter (fun t => t ≠ altTok))) 3 (i + 1)).refreshes,
       (with_backoff (api_request_go env 4 (url.filter (fun t => t ≠ altTok))) 3 (i + 1)).strips + 1,
       (with_backoff (api_request_go env 4 (url.filter (fun t => t ≠ altTok))) 3 (i + 1)).slept + 1⟩ :=
  api_request_go_alt_step env 5 url i resp h1 h2 h3 (by omega)

/-- C3, witness for the amended theorem: after the concrete 400, the run
continues as the decorated budget-4 call and returns the 200 body having
consumed one strip. -/
theorem c3_shared_budget_witness :
    api_request envAlt200 urlAnime1 0 = ⟨Except.ok bodyOK, 2, 0, 1, 2⟩ :=
  (c3_shared_budget envAlt200 urlAnime1 0 ⟨400, []⟩ rfl rfl (by decide)).trans
    rfl

/-- The backoff wrapper with at least two tries left re-issues its
attempt after any raised `RequestException` (every `Exc` models one),
waiting the constant 5 units. -/
lemma with_backoff_step (f : Nat → ApiOut) (i : Nat) (e : Exc)
    (t : Nat) (h : (f i).res = Except.error e) :
    with_backoff f (t + 2) i =
      ⟨(with_backoff f (t + 1) (f i).next).res,
       (with_backoff f (t + 1) (f i).next).next,
       (f i).refreshes + (with_backoff f (t + 1) (f i).next).refreshes,
       (f i).strips + (with_backoff f (t + 1) (f i).next).strips,
       (f i).slept + 5 + (with_backoff f (t + 1) (f i).next).slept⟩ := by
  conv_lhs => rw [with_backoff.eq_def]
  dsimp only
  rw [h]

/-- C4, counterexample: every physical request answers HTTP 404, so the
inner logic raises `HTTPError 404` — an HTTP-status failure, not a
connection-level one — yet the run consumes 3 physical responses
(`next = 3`) with 5-unit pauses between them: the outer wrapper retried
it.  The claim says such failures are not retried by the outer layer,
which would leave `next = 1`. -/
theorem c4_counterexample :
    execute env404s urlAnime1 0 =
      ⟨Except.error (Exc.httpError 404), 3, 0, 0, 13⟩ := rfl

/-- C4 (amended): the outer wrapper (constant 5-unit backoff, at most 3
tries) re-attempts the executor call on every raised `RequestException` —
which includes the `HTTPError`s produced by `raise_for_status` for HTTP
error statuses, since `HTTPError` derives from `RequestException` — not
only on connection-level failures. -/
theorem c4_outer_retries_any_request_exception (env : Nat → Resp)
    (url : Url) (i : Nat) (e : Exc)
    (h : (api_request env url i).res = Except.error e) :
    execute env url i =
      ⟨(with_backoff (api_request env url) 2 (api_request env url i).next).res,
       (with_backoff (api_request env url) 2 (api_request env url i).next).next,
       (api_request env url i).refreshes +
         (with_backoff (api_request env url) 2 (api_request env url i).next).refreshes,
       (api_request env url i).strips +
         (with_backoff (api_request env url) 2 (api_request env url i).next).strips,
       (api_request env url i).slept + 5 +
         (with_backoff (api_request env url) 2 (api_request env url i).next).slept⟩ :=
  with_backoff_step (api_request env url) i e 1 h

/-- C4, witness for the amended theorem: the all-404 run is retried by the
outer layer. -/
theorem c4_outer_retries_any_request_exception_witness :
    execute env404s urlAnime1 1 =
      ⟨Except.error (Exc.httpError 404), 4, 0, 0, 13⟩ :=
  (c4_outer_retries_any_request_exception env404s urlAnime1 1
    (Exc.httpError 404) rfl).trans rfl

/-- The orchestrator's fetch with default options is a plain cache read. -/
lemma request_metadata_default_eq (env : Nat → Resp) (id_ : Nat)
    (etype : String) (c : Cache) (h : etype = "anime" ∨ etype = "manga") :
    request_metadata env id_ etype false false c =
      cache_get env c (buildUrl etype id_) := by
  simp [request_metadata, h]

/-- A default-option fetch with the canonical URL already bound in the
store returns the cached summary and changes nothing. -/
lemma request_metadata_default_hit (env : Nat → Resp) (id_ : Nat)
    (etype : String) (c : Cache) (s : Summary)
    (h : etype = "anime" ∨ etype = "manga")
    (hhit : c.store.find (preprocess_url (buildUrl etype id_)) = some s) :
    request_metadata env id_ etype false false c = (Except.ok s, c) := by
  rw [request_metadata_default_eq env id_ etype c h]
  exact cache_get_hit _ _ _ _ hhit

/-- C5: when the canonical URL is not yet cached and the executor's run
ends in HTTP 404, the default fetch stores and returns a summary whose
metadata is exactly the `error = 404` marker, and a subsequent fetch of
the same entry with `rerequestFailed` returns that cached summary with
the state unchanged — zero further physical requests (`idx` unchanged)
and zero executor invocations (`ncalls` unchanged). -/
theorem c5_404_settled (env : Nat → Resp) (id_ : Nat) (etype : String)
    (c : Cache) (h : etype = "anime" ∨ etype = "manga")
    (hmiss : c.store.find (preprocess_url (buildUrl etype id_)) = none)
    (h404 : (execute env (preprocess_url (buildUrl etype id_)) c.idx).res =
      Except.error (Exc.httpError 404)) :
    ∃ s : Summary,
      request_metadata env id_ etype false false c =
        (Except.ok s, (request_metadata env id_ etype false false c).2) ∧
      s.metadata = [("error", JVal.num 404)] ∧
      (request_metadata env id_ etype false false c).2.store.find
        (preprocess_url (buildUrl etype id_)) = some s ∧
      request_metadata env id_ etype true false
          (request_metadata env id_ etype false false c).2 =
        (Except.ok s, (request_metadata env id_ etype false false c).2) := by
  have hrefresh : refresh_data env c (buildUrl etype id_) =
      (Except.ok ⟨preprocess_url (buildUrl etype id_), [],
          [("error", JVal.num 404)], c.idx⟩,
        ⟨c.store.put (preprocess_url (buildUrl etype id_))
            ⟨preprocess_url (buildUrl etype id_), [],
              [("error", JVal.num 404)], c.idx⟩,
          (execute env (preprocess_url (buildUrl etype id_)) c.idx).next,
          c.ncalls + 1⟩) := by
    rw [refresh_data_eq, h404]
  have hfirst : request_metadata env id_ etype false false c =
      (Except.ok ⟨preprocess_url (buildUrl etype id_), [],
          [("error", JVal.num 404)], c.idx⟩,
        ⟨c.store.put (preprocess_url (buildUrl etype id_))
            ⟨preprocess_url (buildUrl etype id_), [],
              [("error", JVal.num 404)], c.idx⟩,
          (execute env (preprocess_url (buildUrl etype id_)) c.idx).next,
          c.ncalls + 1⟩) := by
    rw [request_metadata_default_eq env id_ etype c h,
      cache_get_miss env c _ hmiss, hrefresh]
  refine ⟨⟨preprocess_url (buildUrl etype id_), [],
    [("error", JVal.num 404)], c.idx⟩, by rw [hfirst], rfl, ?_, ?_⟩
  · rw [hfirst]
    exact Store.find_put_self _ _ _
  · rw [hfirst]
    have hhit := Store.find_put_self c.store
      (preprocess_url (buildUrl etype id_))
      ⟨preprocess_url (buildUrl etype id_), [], [("error", JVal.num 404)],
        c.idx⟩
    have hget := cache_get_hit env
      ⟨c.store.put (preprocess_url (buildUrl etype id_))
          ⟨preprocess_url (buildUrl etype id_), [],
            [("error", JVal.num 404)], c.idx⟩,
        (execute env (preprocess_url (buildUrl etype id_)) c.idx).next,
        c.ncalls + 1⟩
      (buildUrl etype id_) _ hhit
    simp [request_metadata, h, hget, is_404, getKey]

/-- C5, witness: empty store, every response 404, entry manga/99999. -/
theorem c5_404_settled_witness :
    ∃ s : Summary,
      request_metadata env404s 99999 "manga" false false ⟨[], 0, 0⟩ =
        (Except.ok s,
          (request_metadata env404s 99999 "manga" false false ⟨[], 0, 0⟩).2) ∧
      s.metadata = [("error", JVal.num 404)] ∧
      (request_metadata env404s 99999 "manga" false false ⟨[], 0, 0⟩).2.store.find
        (preprocess_url (buildUrl "manga" 99999)) = some s ∧
      request_metadata env404s 99999 "manga" true false
          (request_metadata env404s 99999 "manga" false false ⟨[], 0, 0⟩).2 =
        (Except.ok s,
          (request_metadata env404s 99999 "manga" false false ⟨[], 0, 0⟩).2) :=
  c5_404_settled env404s 99999 "manga" ⟨[], 0, 0⟩ (Or.inr rfl) rfl rfl

/-- C6: a default-option fetch makes at most one executor invocation, and
if it returns a summary, an immediately repeated default fetch returns
the very same summary with the whole state unchanged — the second call is
served entirely from the store (no physical request, no executor
invocation, store intact). -/
theorem c6_cache_idempotent (env : Nat → Resp) (id_ : Nat) (etype : String)
    (c : Cache) (h : etype = "anime" ∨ etype = "manga") :
    (request_metadata env id_ etype false false c).2.ncalls ≤ c.ncalls + 1 ∧
    ∀ s, (request_metadata env id_ etype false false c).1 = Except.ok s →
      request_metadata env id_ etype false false
          (request_metadata env id_ etype false false c).2 =
        (Except.ok s, (request_metadata env id_ etype false false c).2) := by
  rcases hfind : c.store.find (preprocess_url (buildUrl etype id_))
    with _ | s0
  · have hd : request_metadata env id_ etype false false c =
        refresh_data env c (buildUrl etype id_) := by
      rw [request_metadata_default_eq env id_ etype c h,
        cache_get_miss env c _ hfind]
    rw [hd, refresh_data_eq]
    rcases hres : (execute env (preprocess_url (buildUrl etype id_)) c.idx).res
      with e | body
    · cases e with
      | httpError st =>
        dsimp only
        refine ⟨by simp, ?_⟩
        intro s hs
        obtain rfl : (⟨preprocess_url (buildUrl etype id_), [],
            [("error", JVal.num st)], c.idx⟩ : Summary) = s := by
          simpa using hs
        exact request_metadata_default_hit env id_ etype _ _ h
          (Store.find_put_self _ _ _)
      | connError =>
        dsimp only
        refine ⟨by simp, ?_⟩
        intro s hs
        simp at hs
    · dsimp only
      refine ⟨by simp, ?_⟩
      intro s hs
      obtain rfl : (⟨preprocess_url (buildUrl etype id_), [], body, c.idx⟩ :
          Summary) = s := by
        simpa using hs
      exact request_metadata_default_hit env id_ etype _ _ h
        (Store.find_put_self _ _ _)
  · rw [request_metadata_default_hit env id_ etype c s0 h hfind]
    refine ⟨by simp, ?_⟩
    intro s hs
    obtain rfl : s0 = s := by simpa using hs
    exact request_metadata_default_hit env id_ etype c s0 h hfind

/-- C6, witness: empty store against the always-200 stub; the first fetch
invokes the executor once and the repeated fetch is a pure cache hit. -/
theorem c6_cache_idempotent_witness :
    (request_metadata envOk200 1 "anime" false false ⟨[], 0, 0⟩).2.ncalls ≤ 1 ∧
    request_metadata envOk200 1 "anime" false false
        (request_metadata envOk200 1 "anime" false false ⟨[], 0, 0⟩).2 =
      (Except.ok ⟨uAnime1, [], bodyOK, 0⟩,
        (request_metadata envOk200 1 "anime" false false ⟨[], 0, 0⟩).2) :=
  ⟨(c6_cache_idempotent envOk200 1 "anime" ⟨[], 0, 0⟩ (Or.inl rfl)).1,
    (c6_cache_idempotent envOk200 1 "anime" ⟨[], 0, 0⟩ (Or.inl rfl)).2
      ⟨uAnime1, [], bodyOK, 0⟩ rfl⟩

/-- C7: against a stub answering 401 once and
then 200, the decorated executor refreshes the token exactly once
(`refreshes = 1`), does not retry the 401 attempt internally (exactly 2
physical requests, `next = 2` — the second was issued by the outer retry
after its 5-unit pause), and returns the decoded 200 body. -/
theorem c7_auth_refresh_once :
    execute env401then200 urlAnime1 0 = ⟨Except.ok bodyOK, 2, 1, 0, 7⟩ := rfl

/-- C8: when the decorated executor exhausts its retries on a
connection-level failure (no HTTP response was ever obtained), the
orchestrator writes nothing: `refresh_data` propagates the failure with
the store exactly as it was, and likewise a `cache_get` that misses.
Only HTTP-level outcomes (the `.ok` branches of `request_data`) ever
produce a `Summary` to store. -/
theorem c8_no_write_on_conn_exhaustion (env : Nat → Resp) (c : Cache)
    (url : Url)
    (hconn : (execute env (preprocess_url url) c.idx).res =
      Except.error Exc.connError) :
    (refresh_data env c url).1 = Except.error () ∧
    (refresh_data env c url).2.store = c.store ∧
    (c.store.find (preprocess_url url) = none →
      (cache_get env c url).1 = Except.error () ∧
      (cache_get env c url).2.store = c.store) := by
  have hr : refresh_data env c url =
      (Except.error (),
        ⟨c.store, (execute env (preprocess_url url) c.idx).next,
          c.ncalls + 1⟩) := by
    rw [refresh_data_eq, hconn]
  refine ⟨by rw [hr], by rw [hr], fun hmiss => ?_⟩
  rw [cache_get_miss env c url hmiss, hr]
  exact ⟨rfl, rfl⟩

/-- C8, witness: all connection failures, a store with one unrelated
binding left exactly intact. -/
theorem c8_no_write_on_conn_exhaustion_witness :
    (refresh_data envConnFail cacheGood urlAnime1).1 = Except.error () ∧
    (refresh_data envConnFail cacheGood urlAnime1).2.store = cacheGood.store ∧
    (cacheGood.store.find (preprocess_url urlAnime1) = none →
      (cache_get envConnFail cacheGood urlAnime1).1 = Except.error () ∧
      (cache_get envConnFail cacheGood urlAnime1).2.store = cacheGood.store) :=
  c8_no_write_on_conn_exhaustion envConnFail cacheGood urlAnime1 rfl

set_option maxRecDepth 100000 in
/-- C9, counterexample: the claimed "at most 3 attempts within one
executor call" is false of the program.  A stub answering 500 first and
400 afterwards: the first outer try's 500 descends into a nested
decorated call that re-runs the 400-alt attempt at `recursed_times = 1`
(unstripped URL) on each of its 3 wrapper tries — 3 strips — and the
remaining 2 outer tries each strip once more at `recursed_times = 0`:
5 strips within one decorated executor call. -/
theorem c9_counterexample :
    execute env500then400 urlAlt 0 =
      ⟨Except.error (Exc.httpError 400), 1092, 0, 5, 26212⟩ := rfl

/-- C9 (amended): on a 400 response for a URL containing the
alternative-titles query segment, the body removes exactly that segment
and retries as a freshly decorated call at `recursed_times + 1` when
`recursed_times ≤ 2` (budget `≥ 3`); a 400-with-segment arriving at
`recursed_times > 2` (budget `< 3`) propagates the 400 at once.  The
3-attempt guard applies per recursion lineage only — because each retry
re-enters the backoff wrapper, wrapper-level re-runs can repeat the
recovery, so one executor call is not bounded by 3 strips overall. -/
theorem c9_alt_recovery :
    (∀ (env : Nat → Resp) (b : Nat) (url : Url) (i : Nat) (resp : HResp),
      env i = some resp → resp.status = 400 → altTok ∈ url → b < 3 →
      api_request_go env b url i =
        ⟨Except.error (Exc.httpError 400), i + 1, 0, 0, 1⟩) ∧
    (∀ (env : Nat → Resp) (b : Nat) (url : Url) (i : Nat) (resp : HResp),
      env i = some resp → resp.status = 400 → altTok ∈ url → 3 ≤ b →
      api_request_go env b url i =
        ⟨(with_backoff (api_request_go env (b - 1) (url.filter (fun t => t ≠ altTok))) 3 (i + 1)).res,
         (with_backoff (api_request_go env (b - 1) (url.filter (fun t => t ≠ altTok))) 3 (i + 1)).next,
         (with_backoff (api_request_go env (b - 1) (url.filter (fun t => t ≠ altTok))) 3 (i + 1)).refreshes,
         (with_backoff (api_request_go env (b - 1) (url.filter (fun t => t ≠ altTok))) 3 (i + 1)).strips + 1,
         (with_backoff (api_request_go env (b - 1) (url.filter (fun t => t ≠ altTok))) 3 (i + 1)).slept + 1⟩) :=
  ⟨fun env b url i resp h1 h2 h3 hb =>
      api_request_go_alt_raise env b url i resp h1 h2 h3 hb,
   fun env b url i resp h1 h2 h3 hb =>
      api_request_go_alt_step env b url i resp h1 h2 h3 hb⟩

/-- C9, witness: the propagation of the 400 once the shared counter is
past the recovery guard, and one concrete stripped, decorated retry. -/
theorem c9_alt_recovery_witness :
    api_request_go envAltThen500 2 urlAnime1 0 =
      ⟨Except.error (Exc.httpError 400), 1, 0, 0, 1⟩ ∧
    api_request_go envAlt200 5 urlAnime1 0 = ⟨Except.ok bodyOK, 2, 0, 1, 2⟩ :=
  ⟨c9_alt_recovery.1 envAltThen500 2 urlAnime1 0 ⟨400, []⟩ rfl rfl
     (by decide) (by norm_num),
   (c9_alt_recovery.2 envAlt200 5 urlAnime1 0 ⟨400, []⟩ rfl rfl
     (by decide) (by norm_num)).trans rfl⟩

/-- Any key present after a `put` is the written key or was already
present. -/
lemma mem_keys_put (st : Store) (u : Url) (s : Summary) (k : Url)
    (hk : k ∈ (st.put u s).map Prod.fst) :
    k = u ∨ k ∈ st.map Prod.fst := by
  simp only [Store.put, List.map_cons, List.mem_cons, List.mem_map] at hk
  rcases hk with h | ⟨a, ha, rfl⟩
  · exact Or.inl h
  · exact Or.inr (List.mem_map_of_mem _ (List.mem_of_mem_filter ha))

/-- C10: every summary produced by `request_data` carries the canonical
(preprocessed) URL in its `url` field; `refresh_data` stores the summary
under that same canonical key; and no fetch introduces any other key —
in particular a URL modified by the alternative-titles recovery never
becomes a cache key. -/
theorem c10_canonical_key (env : Nat → Resp) (c : Cache) (url : Url) :
    (∀ s, (request_data env c url).1 = Except.ok s →
      s.url = preprocess_url url) ∧
    (∀ s, (refresh_data env c url).1 = Except.ok s →
      (refresh_data env c url).2.store.find (preprocess_url url) = some s) ∧
    (∀ k, k ∈ (refresh_data env c url).2.store.map Prod.fst →
      k = preprocess_url url ∨ k ∈ c.store.map Prod.fst) := by
  have heq := refresh_data_eq env c url
  have heqr := request_data_eq env c url
  refine ⟨fun s hs => ?_, fun s hs => ?_, fun k hk => ?_⟩
  · rw [heqr] at hs
    rcases hres : (execute env (preprocess_url url) c.idx).res with e | body
    · cases e with
      | httpError st =>
        rw [hres] at hs
        obtain rfl : (⟨preprocess_url url, [], [("error", JVal.num st)],
            c.idx⟩ : Summary) = s := by simpa using hs
        rfl
      | connError =>
        rw [hres] at hs
        simp at hs
    · rw [hres] at hs
      obtain rfl : (⟨preprocess_url url, [], body, c.idx⟩ : Summary) = s := by
        simpa using hs
      rfl
  · rcases hres : (execute env (preprocess_url url) c.idx).res with e | body
    · cases e with
      | httpError st =>
        rw [hres] at heq
        rw [heq] at hs ⊢
        obtain rfl : (⟨preprocess_url url, [], [("error", JVal.num st)],
            c.idx⟩ : Summary) = s := by simpa using hs
        simpa using Store.find_put_self c.store (preprocess_url url) _
      | connError =>
        rw [hres] at heq
        rw [heq] at hs
        simp at hs
    · rw [hres] at heq
      rw [heq] at hs ⊢
      obtain rfl : (⟨preprocess_url url, [], body, c.idx⟩ : Summary) = s := by
        simpa using hs
      simpa using Store.find_put_self c.store (preprocess_url url) _
  · rcases hres : (execute env (preprocess_url url) c.idx).res with e | body
    · cases e with
      | httpError st =>
        rw [hres] at heq
        rw [heq] at hk
        exact mem_keys_put c.store _ _ k hk
      | connError =>
        rw [hres] at heq
        rw [heq] at hk
        exact Or.inr hk
    · rw [hres] at heq
      rw [heq] at hk
      exact mem_keys_put c.store _ _ k hk

/-- C10, witness: a run whose first physical attempt returned 400 and
triggered the alternative-titles strip; the physical request succeeded on
the stripped URL, yet the summary and the store key are the canonical
URL. -/
theorem c10_canonical_key_witness :
    (⟨uAnime1, [], bodyOK, 0⟩ : Summary).url = preprocess_url urlAnime1 ∧
    (refresh_data envAlt200 ⟨[], 0, 0⟩ urlAnime1).2.store.find
      (preprocess_url urlAnime1) = some ⟨uAnime1, [], bodyOK, 0⟩ ∧
    (uAnime1 = preprocess_url urlAnime1 ∨
      uAnime1 ∈ ([] : Store).map Prod.fst) :=
  ⟨(c10_canonical_key envAlt200 ⟨[], 0, 0⟩ urlAnime1).1
      ⟨uAnime1, [], bodyOK, 0⟩ rfl,
   (c10_canonical_key envAlt200 ⟨[], 0, 0⟩ urlAnime1).2.1
      ⟨uAnime1, [], bodyOK, 0⟩ rfl,
   (c10_canonical_key envAlt200 ⟨[], 0, 0⟩ urlAnime1).2.2 uAnime1
      (by decide)⟩

